import Mathlib

/-!
# Desert experience: the render loop of `src/artwork/artwork.js`

A shallow embedding of the closure state of `Artwork`'s mount effect and of the
functions that mutate it (`onResize`, `renderScene`, `animateCamera`, `update`,
`guiChanged`) together with the vertex snippet of the sphere shader.

Numbers are elements of an ordered field `α`; the transcendental functions the
source reads from `Math` (`Math.PI`, `Math.cos`, `Math.sin`) and from GLSL
(`sqrt`, `simplexNoise4D`) are parameters of the definitions, so every
definition is executable once they are supplied.  The theorems instantiate them
with the real functions.  What a clock's `getDelta()` returns is an input of
the function that reads it, and so is the decision of the orbit-controls
library to dispatch `'change'` during `controls.main.update()`.
-/

namespace Artwork

/-! ## Data model -/

/-- The three.js `Vector3`: three coordinates. -/
structure Vector3 (α : Type) where
  x : α
  y : α
  z : α

/-- The three.js `PerspectiveCamera(fov, aspect, near, far)` with the two
pieces of its pose the source writes: `position` and the last `lookAt` target
(`none` while `lookAt` has not been called). -/
structure PerspectiveCamera (α : Type) where
  fov : α
  aspect : α
  near : α
  far : α
  position : Vector3 α
  lookAt : Option (Vector3 α)

/-- The object `cameras = { dev, main }` (lines 56-69). -/
structure Cameras (α : Type) where
  dev : PerspectiveCamera α
  main : PerspectiveCamera α

/-- Which camera an expression such as `cameras.main` denotes. -/
inductive CameraName where
  | dev
  | main
deriving DecidableEq, Repr

/-- The four arguments of `setViewport` and `setScissor`.  A coordinate is
`none` when it is `NaN`, the product of `undefined` and a number. -/
structure Rect (α : Type) where
  left : Option α
  bottom : Option α
  width : Option α
  height : Option α

/-- What `renderScene` receives as its first argument and hands to
`renderer.render`: a camera of the pair, or the event object when the function
runs as the `'change'` listener registered on line 102. -/
inductive CameraArg where
  | camera (c : CameraName)
  | event
deriving DecidableEq, Repr

/-- The part of the `WebGLRenderer` the source drives: the arguments of the
last `setSize`, `setViewport` and `setScissor` calls (`none` before the first
call), the tone-mapping exposure, and the log of `render(scene, camera)` calls,
oldest first. -/
structure WebGLRenderer (α : Type) where
  size : α × α
  viewport : Option (Rect α)
  scissor : Option (Rect α)
  toneMappingExposure : α
  renders : List CameraArg

/-- The two functions the source hands to `requestAnimationFrame`.  Every
`animateCamera` closure reads and writes the same outer variables and ignores
the arguments of the `renderScene` call that created it, so a tag is enough. -/
inductive Callback where
  | update
  | animateCamera
deriving DecidableEq, Repr

/-- The mutable variables closed over by the functions of the mount effect
(lines 36-52, 278-281), the window size they read, and the callbacks
registered with `requestAnimationFrame` for the next frame, oldest first.

`time` is the cell `shaderConfig.uniforms.time.value`; `customShader` is
`true` once the variable `customShader` is non-null. -/
structure State (α : Type) where
  innerWidth : α
  innerHeight : α
  cameras : Cameras α
  renderer : WebGLRenderer α
  angle : α
  angularSpeed : α
  radius : α
  orgSphereAltitude : α
  cinematic : Bool
  time : α
  customShader : Bool
  rafQueue : List Callback

/-- What one run of a callback reads from outside the program: the value
`orgSphereClock.getDelta()` returns on line 149, whether the orbit controls
dispatch `'change'` during `controls.main.update()` on line 154, the value
`cameraClock.getDelta()` returns to the `animateCamera()` started by the
`'change'` listener, and the value it returns to an `animateCamera` run that
is not the listener's (line 141 under line 161, or a callback). -/
structure Inputs (α : Type) where
  shaderDelta : α
  changed : Bool
  listenerDelta : α
  cameraDelta : α

section Program

variable {α : Type} [LinearOrderedField α]

/-- Select a camera of the pair. -/
def Cameras.get (c : Cameras α) : CameraName → PerspectiveCamera α
  | CameraName.dev => c.dev
  | CameraName.main => c.main

/-- The state built by lines 36-102 and 278-281, before the first `update()`
of line 172, for a window of size `W × H`; `PI` is `Math.PI`. -/
def init (PI W H : α) : State α where
  innerWidth := W
  innerHeight := H
  cameras :=
    { dev := { fov := 65, aspect := W / H, near := 1 / 10, far := 1000,
               position := ⟨20, 10, 20⟩, lookAt := some ⟨0, 0, 0⟩ },
      main := { fov := 65, aspect := W / H, near := 1 / 10, far := 1000,
                position := ⟨0, 0, 0⟩, lookAt := none } }
  renderer :=
    { size := (W, H), viewport := none, scissor := none,
      toneMappingExposure := 1 / 2, renders := [] }
  angle := 0
  angularSpeed := PI / 18
  radius := 150
  orgSphereAltitude := 50
  cinematic := false
  time := 0
  customShader := false
  rafQueue := []

/-- The function `onResize` (lines 104-110): it writes `cameras.dev.aspect`
and calls `renderer.setSize`. -/
def onResize (s : State α) : State α :=
  { s with
    cameras := { s.cameras with
      dev := { s.cameras.dev with aspect := s.innerWidth / s.innerHeight } }
    renderer := { s.renderer with size := (s.innerWidth, s.innerHeight) } }

/-- A `resize` event: the window takes the size `W × H` and the listener
registered on line 169 runs. -/
def resize (W H : α) (s : State α) : State α :=
  onResize { s with innerWidth := W, innerHeight := H }

/-- The function `animateCamera` (lines 130-139); `delta` is the value
`cameraClock.getDelta()` returns on line 138. -/
def animateCamera (cos sin : α → α) (s : State α) (delta : α) : State α :=
  let s1 : State α := { s with rafQueue := s.rafQueue ++ [Callback.animateCamera] }
  let x := if s1.cinematic then s1.orgSphereAltitude else cos s1.angle * s1.radius
  let y := if s1.cinematic then 5 else s1.orgSphereAltitude * 4 / 5
  let z := if s1.cinematic then sin s1.angle * s1.radius - 100 else sin s1.angle * s1.radius
  let s2 : State α := { s1 with
    cameras := { s1.cameras with
      main := { s1.cameras.main with
        position := ⟨x, y, z⟩
        lookAt := some ⟨0, s1.orgSphereAltitude + 10, 0⟩ } } }
  { s2 with angle := s2.angle + s2.angularSpeed * delta }

/-- The function `renderScene` (lines 113-145).  An argument the caller leaves
out is `undefined`, here `none`, and its product with the window size is `NaN`;
`delta` is read by the `animateCamera()` call of line 141. -/
def renderScene (cos sin : α → α) (s : State α) (camera : CameraArg)
    (left bottom width height : Option α) (delta : α) : State α :=
  let left := left.map (· * s.innerWidth)
  let bottom := bottom.map (· * s.innerHeight)
  let width := width.map (· * s.innerWidth)
  let height := height.map (· * s.innerHeight)
  let s1 : State α := { s with
    renderer := { s.renderer with
      viewport := some ⟨left, bottom, width, height⟩
      scissor := some ⟨left, bottom, width, height⟩ } }
  let s2 := animateCamera cos sin s1 delta
  { s2 with renderer := { s2.renderer with renders := s2.renderer.renders ++ [camera] } }

/-- The call `controls.main.update()` of line 154, for orbit controls that
receive no pointer input.  The controls aim the main camera at their target,
the origin, and leave its position where it is.  When they find the pose of the
camera changed since the pose they last recorded they dispatch `'change'`,
which runs the listener of line 102 as `renderScene(event)`; whether they do is
the input `changed`, the decision being taken inside the library.  Without
pointer input it is `false` on the first tick, where the camera still has the
pose it was created with, and `true` on every later tick, `animateCamera`
having moved the camera and aimed it elsewhere in between.  `delta` is read by
the listener's `animateCamera()`. -/
def controlsUpdate (cos sin : α → α) (s : State α) (changed : Bool) (delta : α) : State α :=
  let s1 : State α := { s with
    cameras := { s.cameras with
      main := { s.cameras.main with lookAt := some ⟨0, 0, 0⟩ } } }
  if changed then renderScene cos sin s1 CameraArg.event none none none none delta else s1

/-- The function `update` (lines 147-167); `shaderDelta` is the value
`orgSphereClock.getDelta()` returns on line 149 (read only when `customShader`
is non-null), `changed` and `listenerDelta` are the inputs of
`controls.main.update()` on line 154, and `cameraDelta` is read inside the
`renderScene` call of line 161. -/
def update (cos sin : α → α) (s : State α) (shaderDelta : α) (changed : Bool)
    (listenerDelta cameraDelta : α) : State α :=
  let s1 : State α := if s.customShader then { s with time := s.time + shaderDelta } else s
  let s2 : State α := { s1 with rafQueue := s1.rafQueue ++ [Callback.update] }
  let s3 := controlsUpdate cos sin s2 changed listenerDelta
  renderScene cos sin s3 (CameraArg.camera CameraName.main) (some 0) (some 0) (some 1) (some 1)
    cameraDelta

/-- The hook `shaderMaterial.onBeforeCompile` (lines 368-370): the renderer
calls it when it compiles the sphere material, and `customShader` becomes
non-null. -/
def onBeforeCompile (s : State α) : State α :=
  { s with customShader := true }

/-- The first `update()` call, line 172, with the inputs it reads;
`customShader` is still null there, so the sphere clock is not read. -/
def mount (cos sin : α → α) (PI W H : α) (first : Inputs α) : State α :=
  update cos sin (init PI W H) first.shaderDelta first.changed first.listenerDelta
    first.cameraDelta

/-! ## Animation frames -/

/-- Run a callback taken from the animation-frame queue with the inputs it
reads during this run. -/
def runCallback (cos sin : α → α) (s : State α) (cb : Callback) (i : Inputs α) : State α :=
  match cb with
  | Callback.update => update cos sin s i.shaderDelta i.changed i.listenerDelta i.cameraDelta
  | Callback.animateCamera => animateCamera cos sin s i.cameraDelta

/-- Run the callbacks `cbs` in order; `clock i` holds the inputs of the
callback at position `i` of the frame. -/
def runCallbacks (cos sin : α → α) (clock : Nat → Inputs α) :
    Nat → List Callback → State α → State α
  | _, [], s => s
  | i, cb :: rest, s => runCallbacks cos sin clock (i + 1) rest (runCallback cos sin s cb (clock i))

/-- One animation frame: the callbacks registered before the frame are taken
off the queue and run once each, in registration order; what they register
waits for the next frame. -/
def frame (cos sin : α → α) (s : State α) (clock : Nat → Inputs α) : State α :=
  runCallbacks cos sin clock 0 s.rafQueue { s with rafQueue := [] }

/-- A run of animation frames, one clock per frame. -/
def frames (cos sin : α → α) (s : State α) (clocks : List (Nat → Inputs α)) : State α :=
  clocks.foldl (frame cos sin) s

/-- The number of update ticks that dispatched `'change'` in a run made of the
tick at mount and one frame per clock: `update` is the first callback of every
frame, so its inputs are the ones at position `0`. -/
def changeCount (first : Inputs α) (clocks : List (Nat → Inputs α)) : Nat :=
  (if first.changed then 1 else 0) + clocks.countP (fun clock => (clock 0).changed)

/-! ## Operations as a transition system -/

/-- The operations that write the closure state, with their inputs. -/
inductive Op (α : Type) where
  | update (shaderDelta : α) (changed : Bool) (listenerDelta cameraDelta : α)
  | renderScene (camera : CameraArg) (left bottom width height : Option α) (delta : α)
  | animateCamera (delta : α)
  | resize (W H : α)
  | onBeforeCompile

/-- Apply an operation. -/
def step (cos sin : α → α) (s : State α) : Op α → State α
  | Op.update shaderDelta changed listenerDelta cameraDelta =>
      update cos sin s shaderDelta changed listenerDelta cameraDelta
  | Op.renderScene camera left bottom width height delta =>
      renderScene cos sin s camera left bottom width height delta
  | Op.animateCamera delta => animateCamera cos sin s delta
  | Op.resize W H => resize W H s
  | Op.onBeforeCompile => onBeforeCompile s

/-- Apply a sequence of operations, first to last. -/
def run (cos sin : α → α) (s : State α) (ops : List (Op α)) : State α :=
  ops.foldl (step cos sin) s

/-- Whether the operation executes the body of `animateCamera`. -/
def Op.ticksCamera : Op α → Bool
  | Op.update _ _ _ _ => true
  | Op.renderScene _ _ _ _ _ _ => true
  | Op.animateCamera _ => true
  | Op.resize _ _ => false
  | Op.onBeforeCompile => false

/-! ## Sky -/

/-- The object `effectController` (lines 190-198). -/
structure EffectController (α : Type) where
  turbidity : α
  rayleigh : α
  mieCoefficient : α
  mieDirectionalG : α
  elevation : α
  azimuth : α
  exposure : α

/-- The values of lines 190-198. -/
def effectController : EffectController α where
  turbidity := 20
  rayleigh := 2
  mieCoefficient := 5 / 1000
  mieDirectionalG := 95 / 100
  elevation := 1
  azimuth := 180
  exposure := 35 / 100

/-- The uniforms of the sky material that `guiChanged` writes. -/
structure SkyUniforms (α : Type) where
  turbidity : α
  rayleigh : α
  mieCoefficient : α
  mieDirectionalG : α
  sunPosition : Vector3 α

/-- The three.js `MathUtils.degToRad`: degrees times `Math.PI / 180`. -/
def degToRad (PI degrees : α) : α :=
  degrees * (PI / 180)

/-- The three.js `Vector3.setFromSphericalCoords(radius, phi, theta)`. -/
def setFromSphericalCoords (cos sin : α → α) (radius phi theta : α) : Vector3 α :=
  let sinPhiRadius := sin phi * radius
  ⟨sinPhiRadius * sin theta, cos phi * radius, sinPhiRadius * cos theta⟩

/-- The function `guiChanged` (lines 200-216): the sky uniforms it writes and
the value it gives `renderer.toneMappingExposure`. -/
def guiChanged (cos sin : α → α) (PI : α) (c : EffectController α) : SkyUniforms α × α :=
  let phi := degToRad PI (90 - c.elevation)
  let theta := degToRad PI c.azimuth
  let sun := setFromSphericalCoords cos sin 1 phi theta
  ({ turbidity := c.turbidity, rayleigh := c.rayleigh, mieCoefficient := c.mieCoefficient,
     mieDirectionalG := c.mieDirectionalG, sunPosition := sun }, c.exposure)

/-! ## The vertex snippet of the sphere shader -/

/-- GLSL `vec4`. -/
structure Vector4 (α : Type) where
  x : α
  y : α
  z : α
  w : α

/-- Component-wise sum of two `vec3`. -/
def Vector3.add (a b : Vector3 α) : Vector3 α :=
  ⟨a.x + b.x, a.y + b.y, a.z + b.z⟩

/-- A `vec3` times a scalar. -/
def Vector3.scale (a : Vector3 α) (k : α) : Vector3 α :=
  ⟨a.x * k, a.y * k, a.z * k⟩

/-- Unary minus on a `vec3`. -/
def Vector3.neg (a : Vector3 α) : Vector3 α :=
  ⟨-a.x, -a.y, -a.z⟩

/-- GLSL `dot`. -/
def Vector3.dot (a b : Vector3 α) : α :=
  a.x * b.x + a.y * b.y + a.z * b.z

/-- GLSL `length`, the Euclidean norm. -/
def Vector3.length (sqrt : α → α) (a : Vector3 α) : α :=
  sqrt (a.dot a)

/-- GLSL `normalize`: the vector divided by its length. -/
def Vector3.normalize (sqrt : α → α) (a : Vector3 α) : Vector3 α :=
  ⟨a.x / a.length sqrt, a.y / a.length sqrt, a.z / a.length sqrt⟩

/-- GLSL `mix(x, y, a) = x * (1 - a) + y * a`, component-wise on `vec3`. -/
def mix (x y : Vector3 α) (a : α) : Vector3 α :=
  ⟨x.x * (1 - a) + y.x * a, x.y * (1 - a) + y.y * a, x.z * (1 - a) + y.z * a⟩

/-- What the vertex snippet writes: `gl_Position` and the three varyings. -/
structure VertexOutput (α : Type) where
  gl_Position : Fin 4 → α
  vNormal : Vector3 α
  vNoise : α
  vColor : Vector3 α

/-- The snippet `vertexShader.postTransform` (lines 296-352), statement by
statement.  `sqrt` and `simplexNoise4D` are the GLSL functions of those names;
the three matrices are the built-in uniforms. -/
def postTransform (sqrt : α → α) (simplexNoise4D : Vector4 α → α)
    (modelMatrix viewMatrix projectionMatrix : Matrix (Fin 4) (Fin 4) α)
    (time : α) (position normal : Vector3 α) : VertexOutput α :=
  -- displacement
  let m_speedDisplace := time / 25
  let m_strengthDisplace : α := 5
  let m_frequencyDisplace : α := 5 / 100
  let displacement := position
  let d := simplexNoise4D ⟨displacement.x * m_frequencyDisplace,
    displacement.y * m_frequencyDisplace, displacement.z * m_frequencyDisplace, m_speedDisplace⟩
  let displacement : Vector3 α := Vector3.scale ⟨d, d, d⟩ m_strengthDisplace
  -- noise
  let m_speedNoise := time / 100
  let m_strengthNoise : α := 2
  let m_frequencyNoise : α := 1
  let noise := simplexNoise4D ⟨displacement.x * m_frequencyNoise,
    displacement.y * m_frequencyNoise, displacement.z * m_frequencyNoise, m_speedNoise⟩
  -- creating new distortion map
  let modifiedPosition := position
  let modifiedPosition := modifiedPosition.add ((normal.scale noise).scale m_strengthNoise)
  -- distorting and positioning
  let viewPosition := (modelMatrix * viewMatrix).mulVec
    ![modifiedPosition.x, modifiedPosition.y, modifiedPosition.z, 1]
  let gl_Position := projectionMatrix.mulVec viewPosition
  -- defining color and lighting
  let lightColorA : Vector3 α := ⟨8 / 10, 6 / 10, 5 / 10⟩
  let lightPositionA : Vector3 α := ⟨0, 0, -1⟩
  let lightMapA := max (-(3 / 10)) (-(normal.dot (lightPositionA.neg.normalize sqrt)))
  let lightColorB : Vector3 α := ⟨28 / 100, 2 / 10, 15 / 100⟩
  let lightPositionB : Vector3 α := ⟨0, -1, 0⟩
  let lightMapB := -(normal.dot (lightPositionB.neg.normalize sqrt)) - 1 / 10
  let lightColorC : Vector3 α := ⟨28 / 100, 2 / 10, 15 / 100⟩
  let lightPositionC : Vector3 α := ⟨0, 1, 0⟩
  let lightMapC := -(normal.dot (lightPositionC.neg.normalize sqrt)) - 1 / 10
  let lightColorD : Vector3 α := ⟨28 / 100, 2 / 10, 15 / 100⟩
  let lightPositionD : Vector3 α := ⟨-1, 0, 0⟩
  let lightMapD := -(normal.dot (lightPositionD.neg.normalize sqrt)) - 1 / 10
  let lightColorE : Vector3 α := ⟨28 / 100, 2 / 10, 15 / 100⟩
  let lightPositionE : Vector3 α := ⟨1, 0, 0⟩
  let lightMapE := -(normal.dot (lightPositionE.neg.normalize sqrt)) - 1 / 10
  let color : Vector3 α := ⟨28 / 100, 2 / 10, 15 / 100⟩
  let color := mix color lightColorA lightMapA
  let color := mix color lightColorB lightMapB
  let color := mix color lightColorC lightMapC
  let color := mix color lightColorD lightMapD
  let color := mix color lightColorE lightMapE
  -- global vars
  { gl_Position := gl_Position, vNormal := normal, vNoise := noise, vColor := color }

/-- The snippet `fragmentShader.fragColor` (line 363): `vec4(vColor, 1.0)`. -/
def fragColor (vColor : Vector3 α) : Vector4 α :=
  ⟨vColor.x, vColor.y, vColor.z, 1⟩

/-- The blend factor of the closed form of the lighting colour, written from
its statement: `tA * (1 - tB) * (1 - tC) * (1 - tD) * (1 - tE)` with
`tA = max(-0.3, -nz)`, `tB = -ny - 0.1`, `tC = ny - 0.1`, `tD = -nx - 0.1` and
`tE = nx - 0.1`. -/
def lightBlendFactor (normal : Vector3 α) : α :=
  max (-(3 / 10)) (-normal.z) * (1 - (-normal.y - 1 / 10)) * (1 - (normal.y - 1 / 10))
    * (1 - (-normal.x - 1 / 10)) * (1 - (normal.x - 1 / 10))

end Program

/-! ## Predicates and auxiliary functions of the statements -/

/-- The constants of the orbit have the values of lines 46-52. -/
def OrbitConstants (s : State ℝ) : Prop :=
  s.cinematic = false ∧ s.radius = 150 ∧ s.orgSphereAltitude = 50

/-- The main camera is on the circle of radius `150` at height `40`. -/
def OnOrbit (s : State ℝ) : Prop :=
  s.cameras.main.position.x ^ 2 + s.cameras.main.position.z ^ 2 = 150 ^ 2
    ∧ s.cameras.main.position.y = 40

/-- The callbacks a callback registers for the next frame when it runs:
`update` registers itself, then one `animateCamera` through the `'change'`
listener if the controls dispatch the event, then one through the
`renderScene` call of line 161; `animateCamera` registers itself. -/
def Callback.registers : Callback → Bool → List Callback
  | Callback.update, true =>
      [Callback.update, Callback.animateCamera, Callback.animateCamera]
  | Callback.update, false => [Callback.update, Callback.animateCamera]
  | Callback.animateCamera, _ => [Callback.animateCamera]

/-- A noise function used to exhibit the dependence of `vNoise` on `time`: the
fourth coordinate of its argument. -/
def wNoise (v : Vector4 ℝ) : ℝ := v.w

/-! ## Checks on concrete inputs -/

example : (mount (fun _ => (1 : ℚ)) (fun _ => 0) 3 800 600 ⟨0, false, 0, 1⟩).rafQueue
    = [Callback.update, Callback.animateCamera] := by decide

example : (update (fun _ => (1 : ℚ)) (fun _ => 0)
      (mount (fun _ => 1) (fun _ => 0) 3 800 600 ⟨0, false, 0, 0⟩) 0 true 0 0).renderer.renders
    = [CameraArg.camera CameraName.main, CameraArg.event, CameraArg.camera CameraName.main] := by
  decide

example : (animateCamera (fun _ => (1 : ℚ)) (fun _ => 0) (init 3 800 600) 6).angle = 1 := by
  simp [animateCamera, init]
  norm_num

/-! ## The camera tick -/

section Generic

variable {α : Type} [LinearOrderedField α]

theorem animateCamera_angle (cos sin : α → α) (s : State α) (d : α) :
    (animateCamera cos sin s d).angle = s.angle + s.angularSpeed * d := rfl

theorem animateCamera_angularSpeed (cos sin : α → α) (s : State α) (d : α) :
    (animateCamera cos sin s d).angularSpeed = s.angularSpeed := rfl

theorem foldl_animateCamera_angularSpeed (cos sin : α → α) (ds : List α) (s : State α) :
    (ds.foldl (animateCamera cos sin) s).angularSpeed = s.angularSpeed := by
  induction ds generalizing s with
  | nil => rfl
  | cons d ds ih => rw [List.foldl_cons, ih, animateCamera_angularSpeed]

theorem foldl_animateCamera_angle (cos sin : α → α) (ds : List α) (s : State α) :
    (ds.foldl (animateCamera cos sin) s).angle = s.angle + s.angularSpeed * ds.sum := by
  induction ds generalizing s with
  | nil => simp
  | cons d ds ih =>
    rw [List.foldl_cons, ih, animateCamera_angle, animateCamera_angularSpeed, List.sum_cons]
    ring

theorem animateCamera_position (cos sin : α → α) (s : State α) (d : α)
    (hc : s.cinematic = false) :
    (animateCamera cos sin s d).cameras.main.position
      = ⟨cos s.angle * s.radius, s.orgSphereAltitude * 4 / 5, sin s.angle * s.radius⟩ := by
  simp [animateCamera, hc]

end Generic

/-- C1. After `n` calls of `animateCamera` whose camera clock returns `d` each
time, `angle` is the initial angle plus `angularSpeed * n * d`, with
`angularSpeed = π / 18`; for any list of deltas it is the initial angle plus
`angularSpeed` times their sum.  Nothing is reduced modulo `2π`. -/
theorem animateCamera_angle_accumulates (s : State ℝ) (hs : s.angularSpeed = Real.pi / 18)
    (n : ℕ) (d : ℝ) (ds : List ℝ) :
    ((List.replicate n d).foldl (animateCamera Real.cos Real.sin) s).angle
        = s.angle + Real.pi / 18 * n * d
      ∧ (ds.foldl (animateCamera Real.cos Real.sin) s).angle
        = s.angle + Real.pi / 18 * ds.sum := by
  refine ⟨?_, ?_⟩
  · rw [foldl_animateCamera_angle, hs, List.sum_replicate, nsmul_eq_mul]
    ring
  · rw [foldl_animateCamera_angle, hs]

theorem animateCamera_angle_accumulates_witness :
    (init Real.pi 800 600).angularSpeed = Real.pi / 18
      ∧ ((List.replicate 3 (1 / 60)).foldl (animateCamera Real.cos Real.sin)
            (init Real.pi 800 600)).angle
          = (init Real.pi 800 600).angle + Real.pi / 18 * (3 : ℕ) * (1 / 60)
      ∧ ([1 / 60, 1 / 30].foldl (animateCamera Real.cos Real.sin) (init Real.pi 800 600)).angle
          = (init Real.pi 800 600).angle + Real.pi / 18 * [1 / 60, 1 / 30].sum :=
  ⟨rfl, animateCamera_angle_accumulates (init Real.pi 800 600) rfl 3 (1 / 60) [1 / 60, 1 / 30]⟩

/-- C2. With `cinematic = false`, `radius = 150` and `orgSphereAltitude = 50`,
the position `animateCamera` gives the main camera at `angle = 0` is
`(radius, 0.8 * orgSphereAltitude, 0) = (150, 40, 0)` and at `angle = π / 2` it
is `(0, 0.8 * orgSphereAltitude, radius) = (0, 40, 150)`. -/
theorem animateCamera_position_at_fixed_angles (s : State ℝ) (d : ℝ)
    (hc : s.cinematic = false) (hr : s.radius = 150) (ha : s.orgSphereAltitude = 50) :
    (animateCamera Real.cos Real.sin { s with angle := 0 } d).cameras.main.position
        = ⟨150, 40, 0⟩
      ∧ (⟨s.radius, 8 / 10 * s.orgSphereAltitude, 0⟩ : Vector3 ℝ) = ⟨150, 40, 0⟩
      ∧ (animateCamera Real.cos Real.sin { s with angle := Real.pi / 2 } d).cameras.main.position
        = ⟨0, 40, 150⟩
      ∧ (⟨0, 8 / 10 * s.orgSphereAltitude, s.radius⟩ : Vector3 ℝ) = ⟨0, 40, 150⟩ := by
  refine ⟨?_, ?_, ?_, ?_⟩
  · rw [animateCamera_position _ _ _ _ (show ({ s with angle := 0 } : State ℝ).cinematic = false from hc)]
    simp only [hr, ha, Real.cos_zero, Real.sin_zero]
    norm_num
  · rw [hr, ha]
    norm_num
  · rw [animateCamera_position _ _ _ _
      (show ({ s with angle := Real.pi / 2 } : State ℝ).cinematic = false from hc)]
    simp only [hr, ha, Real.cos_pi_div_two, Real.sin_pi_div_two]
    norm_num
  · rw [hr, ha]
    norm_num

theorem animateCamera_position_at_fixed_angles_witness :
    (animateCamera Real.cos Real.sin { init Real.pi 800 600 with angle := 0 }
        (1 / 60)).cameras.main.position = ⟨150, 40, 0⟩
      ∧ (animateCamera Real.cos Real.sin { init Real.pi 800 600 with angle := Real.pi / 2 }
        (1 / 60)).cameras.main.position = ⟨0, 40, 150⟩ :=
  ⟨(animateCamera_position_at_fixed_angles (init Real.pi 800 600) (1 / 60) rfl rfl rfl).1,
   (animateCamera_position_at_fixed_angles (init Real.pi 800 600) (1 / 60) rfl rfl rfl).2.2.1⟩

/-- C3, as the specification states it, fails: started at `angle = 0` with a
delta of `9` seconds the advanced angle is `π / 2`, where the claimed position
is `(0, 40, 150)`, but the tick leaves the main camera at `(150, 40, 0)`. -/
theorem animateCamera_position_not_from_advanced_angle :
    ¬ (animateCamera Real.cos Real.sin (init Real.pi 800 600) 9).cameras.main.position
        = ⟨Real.cos ((init Real.pi 800 600).angle + (init Real.pi 800 600).angularSpeed * 9)
              * (init Real.pi 800 600).radius,
            (init Real.pi 800 600).orgSphereAltitude * 4 / 5,
            Real.sin ((init Real.pi 800 600).angle + (init Real.pi 800 600).angularSpeed * 9)
              * (init Real.pi 800 600).radius⟩ := by
  rw [animateCamera_position _ _ _ _ rfl]
  have h9 : (init Real.pi 800 600).angle + (init Real.pi 800 600).angularSpeed * 9
      = Real.pi / 2 := by
    simp only [init]
    ring
  rw [h9, Real.cos_pi_div_two, Real.sin_pi_div_two]
  simp [init]

/-- C3, amended.  A tick of `animateCamera` with `cinematic = false` computes
the main camera position from the angle it starts with,
`(cos a * radius, orgSphereAltitude * 4 / 5, sin a * radius)`, and only then
advances the angle to `a + angularSpeed * d`. -/
theorem animateCamera_position_then_advance (s : State ℝ) (d : ℝ) (hc : s.cinematic = false) :
    (animateCamera Real.cos Real.sin s d).cameras.main.position
        = ⟨Real.cos s.angle * s.radius, s.orgSphereAltitude * 4 / 5,
            Real.sin s.angle * s.radius⟩
      ∧ (animateCamera Real.cos Real.sin s d).angle = s.angle + s.angularSpeed * d :=
  ⟨animateCamera_position _ _ _ _ hc, rfl⟩

theorem animateCamera_position_then_advance_witness :
    (animateCamera Real.cos Real.sin (init Real.pi 800 600) 9).cameras.main.position
        = ⟨Real.cos (init Real.pi 800 600).angle * (init Real.pi 800 600).radius,
            (init Real.pi 800 600).orgSphereAltitude * 4 / 5,
            Real.sin (init Real.pi 800 600).angle * (init Real.pi 800 600).radius⟩
      ∧ (animateCamera Real.cos Real.sin (init Real.pi 800 600) 9).angle
        = (init Real.pi 800 600).angle + (init Real.pi 800 600).angularSpeed * 9 :=
  animateCamera_position_then_advance (init Real.pi 800 600) 9 rfl

/-! ## Resize -/

section Generic

variable {α : Type} [LinearOrderedField α]

theorem resize_dev_aspect (W H : α) (s : State α) :
    (resize W H s).cameras.dev.aspect = W / H := rfl

theorem resize_main_aspect (W H : α) (s : State α) :
    (resize W H s).cameras.main.aspect = s.cameras.main.aspect := rfl

theorem resize_renderer_size (W H : α) (s : State α) :
    (resize W H s).renderer.size = (W, H) := rfl

end Generic

/-- C4. The code at the failing input: an `800 × 600` window resized to
`1000 × 500`.  `onResize` gives the renderer the size `(1000, 500)` and the dev
camera the aspect `1000 / 500 = 2`, but the main camera keeps the aspect
`800 / 600` it was constructed with, which is not `1000 / 500`. -/
theorem onResize_leaves_main_aspect :
    (resize 1000 500 (init Real.pi 800 600)).renderer.size = (1000, 500)
      ∧ (resize 1000 500 (init Real.pi 800 600)).cameras.dev.aspect = 1000 / 500
      ∧ (resize 1000 500 (init Real.pi 800 600)).cameras.main.aspect = 800 / 600
      ∧ (resize 1000 500 (init Real.pi 800 600)).cameras.main.aspect ≠ 1000 / 500 := by
  refine ⟨rfl, rfl, rfl, ?_⟩
  rw [resize_main_aspect]
  simp only [init]
  norm_num

/-! ## Shader time -/

section Generic

variable {α : Type} [LinearOrderedField α]

theorem animateCamera_time (cos sin : α → α) (s : State α) (d : α) :
    (animateCamera cos sin s d).time = s.time := rfl

theorem renderScene_time (cos sin : α → α) (s : State α) (c : CameraArg)
    (l b w h : Option α) (d : α) : (renderScene cos sin s c l b w h d).time = s.time := rfl

theorem controlsUpdate_time (cos sin : α → α) (s : State α) (changed : Bool) (d : α) :
    (controlsUpdate cos sin s changed d).time = s.time := by
  cases changed <;> rfl

theorem update_time_of_shader (cos sin : α → α) (s : State α) (dS : α) (changed : Bool)
    (dL dC : α) (h : s.customShader = true) :
    (update cos sin s dS changed dL dC).time = s.time + dS := by
  unfold update
  rw [renderScene_time, controlsUpdate_time]
  simp [h]

theorem update_time_of_null (cos sin : α → α) (s : State α) (dS : α) (changed : Bool)
    (dL dC : α) (h : s.customShader = false) :
    (update cos sin s dS changed dL dC).time = s.time := by
  unfold update
  rw [renderScene_time, controlsUpdate_time]
  simp [h]

theorem update_time_le (cos sin : α → α) (s : State α) (dS : α) (changed : Bool)
    (dL dC : α) (hd : 0 ≤ dS) : s.time ≤ (update cos sin s dS changed dL dC).time := by
  cases h : s.customShader
  · rw [update_time_of_null _ _ _ _ _ _ _ h]
  · rw [update_time_of_shader _ _ _ _ _ _ _ h]
    exact le_add_of_nonneg_right hd

theorem step_time_le (cos sin : α → α) (s : State α) (op : Op α)
    (h : ∀ dS ch dL dC, op = Op.update dS ch dL dC → 0 ≤ dS) :
    s.time ≤ (step cos sin s op).time := by
  cases op with
  | update dS ch dL dC => exact update_time_le _ _ _ _ _ _ _ (h dS ch dL dC rfl)
  | renderScene c l b w h d => exact le_of_eq rfl
  | animateCamera d => exact le_of_eq rfl
  | resize W H => exact le_of_eq rfl
  | onBeforeCompile => exact le_of_eq rfl

theorem run_time_le (cos sin : α → α) (ops : List (Op α)) (s : State α)
    (h : ∀ dS ch dL dC, Op.update dS ch dL dC ∈ ops → 0 ≤ dS) :
    s.time ≤ (run cos sin s ops).time := by
  induction ops generalizing s with
  | nil => exact le_refl _
  | cons op ops ih =>
    have h1 : s.time ≤ (step cos sin s op).time :=
      step_time_le _ _ _ _
        (fun dS ch dL dC e => h dS ch dL dC (by rw [e]; exact List.mem_cons_self _ _))
    have h2 := ih (step cos sin s op)
      (fun dS ch dL dC hm => h dS ch dL dC (List.mem_cons_of_mem _ hm))
    exact le_trans h1 h2

end Generic

/-- C5. The shader time starts at `0`.  A tick of `update` whose sphere-clock
delta is non-negative never lowers it: it adds exactly the delta when
`customShader` is initialised and leaves it unchanged when `customShader` is
null, whether or not the controls dispatch `'change'` in the tick.  Along every
sequence of operations whose update deltas are non-negative the time at the end
of a prefix is at most the time at the end of the whole sequence, so it is
never reset. -/
theorem update_time_monotone (s : State ℝ) (shaderDelta : ℝ) (changed : Bool)
    (listenerDelta cameraDelta : ℝ) (before after : List (Op ℝ)) (hd : 0 ≤ shaderDelta)
    (hops : ∀ dS ch dL dC, Op.update dS ch dL dC ∈ before ++ after → 0 ≤ dS) :
    (∀ W H, (init Real.pi W H).time = 0)
      ∧ s.time
          ≤ (update Real.cos Real.sin s shaderDelta changed listenerDelta cameraDelta).time
      ∧ (s.customShader = true →
          (update Real.cos Real.sin s shaderDelta changed listenerDelta cameraDelta).time
            = s.time + shaderDelta)
      ∧ (s.customShader = false →
          (update Real.cos Real.sin s shaderDelta changed listenerDelta cameraDelta).time
            = s.time)
      ∧ (run Real.cos Real.sin s before).time
          ≤ (run Real.cos Real.sin s (before ++ after)).time := by
  refine ⟨fun _ _ => rfl, update_time_le _ _ _ _ _ _ _ hd,
    update_time_of_shader _ _ _ _ _ _ _, update_time_of_null _ _ _ _ _ _ _, ?_⟩
  have e : run Real.cos Real.sin s (before ++ after)
      = run Real.cos Real.sin (run Real.cos Real.sin s before) after := by
    simp [run, List.foldl_append]
  rw [e]
  exact run_time_le _ _ _ _ (fun dS ch dL dC hm => hops dS ch dL dC (List.mem_append_right _ hm))

theorem update_time_monotone_witness :
    (∀ W H, (init Real.pi W H).time = 0)
      ∧ (onBeforeCompile (init Real.pi 800 600)).time
          ≤ (update Real.cos Real.sin (onBeforeCompile (init Real.pi 800 600))
              (1 / 60) true 0 0).time
      ∧ ((onBeforeCompile (init Real.pi 800 600)).customShader = true →
          (update Real.cos Real.sin (onBeforeCompile (init Real.pi 800 600))
              (1 / 60) true 0 0).time
            = (onBeforeCompile (init Real.pi 800 600)).time + 1 / 60)
      ∧ ((onBeforeCompile (init Real.pi 800 600)).customShader = false →
          (update Real.cos Real.sin (onBeforeCompile (init Real.pi 800 600))
              (1 / 60) true 0 0).time
            = (onBeforeCompile (init Real.pi 800 600)).time)
      ∧ (run Real.cos Real.sin (onBeforeCompile (init Real.pi 800 600))
            [Op.update 1 false 0 0]).time
          ≤ (run Real.cos Real.sin (onBeforeCompile (init Real.pi 800 600))
              ([Op.update 1 false 0 0] ++ [Op.resize 1000 500, Op.update 2 true 0 0])).time :=
  update_time_monotone (onBeforeCompile (init Real.pi 800 600)) (1 / 60) true 0 0
    [Op.update 1 false 0 0] [Op.resize 1000 500, Op.update 2 true 0 0] (by norm_num)
    (by
      intro dS ch dL dC hm
      simp at hm
      rcases hm with ⟨h, _⟩ | ⟨h, _⟩ <;> rw [h] <;> norm_num)

/-! ## Sun direction -/

/-- C6. For an elevation in `[0, 90]` and an azimuth in `[-180, 180]` degrees,
with `phi = degToRad (90 - elevation)` and `theta = degToRad azimuth`, the sun
vector `guiChanged` writes is `(sin phi * sin theta, cos phi, sin phi * cos theta)`
and its length is exactly `1`. -/
theorem sun_direction_unit (c : EffectController ℝ)
    (he : 0 ≤ c.elevation ∧ c.elevation ≤ 90) (ha : -180 ≤ c.azimuth ∧ c.azimuth ≤ 180) :
    (guiChanged Real.cos Real.sin Real.pi c).1.sunPosition
        = ⟨Real.sin (degToRad Real.pi (90 - c.elevation)) * Real.sin (degToRad Real.pi c.azimuth),
            Real.cos (degToRad Real.pi (90 - c.elevation)),
            Real.sin (degToRad Real.pi (90 - c.elevation))
              * Real.cos (degToRad Real.pi c.azimuth)⟩
      ∧ ((guiChanged Real.cos Real.sin Real.pi c).1.sunPosition).length Real.sqrt = 1 := by
  have _ := he
  have _ := ha
  refine ⟨?_, ?_⟩
  · simp [guiChanged, setFromSphericalCoords]
  · simp only [guiChanged, setFromSphericalCoords, Vector3.length, Vector3.dot, mul_one]
    have h1 := Real.sin_sq_add_cos_sq (degToRad Real.pi (90 - c.elevation))
    have h2 := Real.sin_sq_add_cos_sq (degToRad Real.pi c.azimuth)
    have e : Real.sin (degToRad Real.pi (90 - c.elevation)) * Real.sin (degToRad Real.pi c.azimuth)
          * (Real.sin (degToRad Real.pi (90 - c.elevation))
            * Real.sin (degToRad Real.pi c.azimuth))
        + Real.cos (degToRad Real.pi (90 - c.elevation))
          * Real.cos (degToRad Real.pi (90 - c.elevation))
        + Real.sin (degToRad Real.pi (90 - c.elevation)) * Real.cos (degToRad Real.pi c.azimuth)
          * (Real.sin (degToRad Real.pi (90 - c.elevation))
            * Real.cos (degToRad Real.pi c.azimuth)) = 1 := by
      nlinarith [h1, h2]
    rw [e, Real.sqrt_one]

theorem sun_direction_unit_witness :
    ((guiChanged Real.cos Real.sin Real.pi (effectController : EffectController ℝ)).1.sunPosition
        ).length Real.sqrt = 1 :=
  (sun_direction_unit effectController
    ⟨by simp [effectController], by norm_num [effectController]⟩
    ⟨by norm_num [effectController], by simp [effectController]⟩).2

/-! ## The orbit as an invariant -/

theorem renderScene_orbitConstants (s : State ℝ) (c : CameraArg) (l b w h : Option ℝ) (d : ℝ)
    (hs : OrbitConstants s) : OrbitConstants (renderScene Real.cos Real.sin s c l b w h d) :=
  hs

theorem controlsUpdate_orbitConstants (s : State ℝ) (changed : Bool) (d : ℝ)
    (hs : OrbitConstants s) : OrbitConstants (controlsUpdate Real.cos Real.sin s changed d) := by
  cases changed <;> exact hs

theorem update_orbitConstants (s : State ℝ) (dS : ℝ) (changed : Bool) (dL dC : ℝ)
    (hs : OrbitConstants s) :
    OrbitConstants (update Real.cos Real.sin s dS changed dL dC) := by
  unfold update
  apply renderScene_orbitConstants
  apply controlsUpdate_orbitConstants
  cases hc : s.customShader <;> exact hs

theorem step_cinematic (s : State ℝ) (op : Op ℝ) :
    (step Real.cos Real.sin s op).cinematic = s.cinematic := by
  cases op with
  | update dS ch dL dC =>
    show (update Real.cos Real.sin s dS ch dL dC).cinematic = s.cinematic
    unfold update
    cases ch <;> cases hc : s.customShader <;> rfl
  | renderScene c l b w h d => rfl
  | animateCamera d => rfl
  | resize W H => rfl
  | onBeforeCompile => rfl

theorem step_orbitConstants (s : State ℝ) (op : Op ℝ) (h : OrbitConstants s) :
    OrbitConstants (step Real.cos Real.sin s op) := by
  cases op with
  | update dS ch dL dC => exact update_orbitConstants s dS ch dL dC h
  | renderScene c l b w h1 d => exact h
  | animateCamera d => exact h
  | resize W H => exact h
  | onBeforeCompile => exact h

theorem onOrbit_of_position (s : State ℝ) (a : ℝ)
    (h : s.cameras.main.position = ⟨Real.cos a * 150, 50 * 4 / 5, Real.sin a * 150⟩) :
    OnOrbit s := by
  unfold OnOrbit
  rw [h]
  refine ⟨?_, by norm_num⟩
  show (Real.cos a * 150) ^ 2 + (Real.sin a * 150) ^ 2 = 150 ^ 2
  nlinarith [Real.sin_sq_add_cos_sq a]

theorem renderScene_position (s : State ℝ) (c : CameraArg) (l b w h : Option ℝ) (d : ℝ)
    (hc : s.cinematic = false) :
    (renderScene Real.cos Real.sin s c l b w h d).cameras.main.position
      = ⟨Real.cos s.angle * s.radius, s.orgSphereAltitude * 4 / 5,
          Real.sin s.angle * s.radius⟩ := by
  simp [renderScene, animateCamera, hc]

theorem renderScene_onOrbit (s : State ℝ) (c : CameraArg) (l b w h : Option ℝ) (d : ℝ)
    (hs : OrbitConstants s) : OnOrbit (renderScene Real.cos Real.sin s c l b w h d) := by
  obtain ⟨hc, hr, ha⟩ := hs
  apply onOrbit_of_position _ s.angle
  rw [renderScene_position _ _ _ _ _ _ _ hc, hr, ha]

theorem update_onOrbit (s : State ℝ) (dS : ℝ) (changed : Bool) (dL dC : ℝ)
    (hs : OrbitConstants s) : OnOrbit (update Real.cos Real.sin s dS changed dL dC) := by
  unfold update
  apply renderScene_onOrbit
  apply controlsUpdate_orbitConstants
  cases hc : s.customShader <;> exact hs

theorem step_onOrbit_of_ticks (s : State ℝ) (op : Op ℝ) (h : OrbitConstants s)
    (ht : op.ticksCamera = true) : OnOrbit (step Real.cos Real.sin s op) := by
  cases op with
  | update dS ch dL dC => exact update_onOrbit s dS ch dL dC h
  | renderScene c l b w h1 d => exact renderScene_onOrbit s c l b w h1 d h
  | animateCamera d =>
    obtain ⟨hc, hr, ha⟩ := h
    apply onOrbit_of_position _ s.angle
    show (animateCamera Real.cos Real.sin s d).cameras.main.position = _
    rw [animateCamera_position _ _ _ _ hc, hr, ha]
  | resize W H => simp [Op.ticksCamera] at ht
  | onBeforeCompile => simp [Op.ticksCamera] at ht

theorem step_onOrbit (s : State ℝ) (op : Op ℝ) (h : OrbitConstants s) (ho : OnOrbit s) :
    OnOrbit (step Real.cos Real.sin s op) := by
  cases ht : op.ticksCamera
  · cases op with
    | update dS ch dL dC => simp [Op.ticksCamera] at ht
    | renderScene c l b w h d => simp [Op.ticksCamera] at ht
    | animateCamera d => simp [Op.ticksCamera] at ht
    | resize W H => exact ho
    | onBeforeCompile => exact ho
  · exact step_onOrbit_of_ticks s op h ht

theorem run_orbitConstants (ops : List (Op ℝ)) (s : State ℝ) (h : OrbitConstants s) :
    OrbitConstants (run Real.cos Real.sin s ops) := by
  induction ops generalizing s with
  | nil => exact h
  | cons op ops ih => exact ih _ (step_orbitConstants s op h)

theorem run_onOrbit (ops : List (Op ℝ)) (s : State ℝ) (h : OrbitConstants s) (ho : OnOrbit s) :
    OnOrbit (run Real.cos Real.sin s ops) := by
  induction ops generalizing s with
  | nil => exact ho
  | cons op ops ih => exact ih _ (step_orbitConstants s op h) (step_onOrbit s op h ho)

theorem run_onOrbit_of_ticks (ops : List (Op ℝ)) (s : State ℝ) (h : OrbitConstants s)
    (ht : ∃ op ∈ ops, op.ticksCamera = true) : OnOrbit (run Real.cos Real.sin s ops) := by
  induction ops generalizing s with
  | nil =>
    obtain ⟨op, hm, _⟩ := ht
    simp at hm
  | cons op ops ih =>
    show OnOrbit (run Real.cos Real.sin (step Real.cos Real.sin s op) ops)
    cases hop : op.ticksCamera
    · apply ih _ (step_orbitConstants s op h)
      obtain ⟨o, hm, ho⟩ := ht
      rcases List.mem_cons.mp hm with e | hm
      · rw [e, hop] at ho
        cases ho
      · exact ⟨o, hm, ho⟩
    · exact run_onOrbit ops _ (step_orbitConstants s op h) (step_onOrbit_of_ticks s op h hop)

/-- C7. `cinematic` is `false` in the initial state and no operation (`update`
with or without a `'change'` event, `renderScene`, `animateCamera`, resize,
shader compilation) changes it; hence in every state reached from the initial
one by a sequence of operations of which at least one runs `animateCamera`, the
main camera position satisfies `x ^ 2 + z ^ 2 = 150 ^ 2` and `y = 40`, whatever
the angle. -/
theorem main_camera_on_orbit (W H : ℝ) (ops : List (Op ℝ))
    (ht : ∃ op ∈ ops, op.ticksCamera = true) :
    (init Real.pi W H).cinematic = false
      ∧ (∀ (s : State ℝ) (op : Op ℝ), (step Real.cos Real.sin s op).cinematic = s.cinematic)
      ∧ (run Real.cos Real.sin (init Real.pi W H) ops).cinematic = false
      ∧ (run Real.cos Real.sin (init Real.pi W H) ops).cameras.main.position.x ^ 2
          + (run Real.cos Real.sin (init Real.pi W H) ops).cameras.main.position.z ^ 2
          = 150 ^ 2
      ∧ (run Real.cos Real.sin (init Real.pi W H) ops).cameras.main.position.y = 40 := by
  have h0 : OrbitConstants (init Real.pi W H) := ⟨rfl, rfl, rfl⟩
  have h1 := run_orbitConstants ops _ h0
  have h2 := run_onOrbit_of_ticks ops _ h0 ht
  exact ⟨rfl, step_cinematic, h1.1, h2.1, h2.2⟩

theorem main_camera_on_orbit_witness :
    (run Real.cos Real.sin (init Real.pi 800 600)
        [Op.update 0 false 0 0, Op.resize 1000 500, Op.update 1 true 2 3,
          Op.animateCamera 3]).cameras.main.position.x ^ 2
      + (run Real.cos Real.sin (init Real.pi 800 600)
        [Op.update 0 false 0 0, Op.resize 1000 500, Op.update 1 true 2 3,
          Op.animateCamera 3]).cameras.main.position.z ^ 2
      = 150 ^ 2 :=
  (main_camera_on_orbit 800 600
    [Op.update 0 false 0 0, Op.resize 1000 500, Op.update 1 true 2 3, Op.animateCamera 3]
    ⟨Op.update 0 false 0 0, by simp, rfl⟩).2.2.2.1

/-! ## The lighting colour and `time` -/

section Generic

variable {α : Type} [LinearOrderedField α]

theorem postTransform_vColor_time (sqrt : α → α) (noise : Vector4 α → α)
    (M V P : Matrix (Fin 4) (Fin 4) α) (t1 t2 : α) (position normal : Vector3 α) :
    (postTransform sqrt noise M V P t1 position normal).vColor
      = (postTransform sqrt noise M V P t2 position normal).vColor := rfl

end Generic

/-- C8, as the specification states it, fails: there are no noise function,
matrices, position, normal and two values of `time` for which the colour
`vColor` of the vertex stage differs. -/
theorem vColor_never_differs_in_time :
    ¬ ∃ (noise : Vector4 ℝ → ℝ) (M V P : Matrix (Fin 4) (Fin 4) ℝ)
        (position normal : Vector3 ℝ) (t1 t2 : ℝ),
        (postTransform Real.sqrt noise M V P t1 position normal).vColor
          ≠ (postTransform Real.sqrt noise M V P t2 position normal).vColor := by
  rintro ⟨noise, M, V, P, position, normal, t1, t2, h⟩
  exact h (postTransform_vColor_time _ _ _ _ _ _ _ _ _)

/-- C8, amended.  The colour `vColor` the vertex stage passes to the fragment
stage does not depend on `time`: for a fixed noise function, matrices, position
and normal it is the same at any two times, and so is the fragment colour
`vec4(vColor, 1.0)`.  The varying that `time` does reach is `vNoise`: with the
noise function that returns its fourth coordinate, `vNoise` is `time / 100`. -/
theorem vColor_independent_of_time (noise : Vector4 ℝ → ℝ)
    (M V P : Matrix (Fin 4) (Fin 4) ℝ) (position normal : Vector3 ℝ) (t1 t2 : ℝ) :
    (postTransform Real.sqrt noise M V P t1 position normal).vColor
        = (postTransform Real.sqrt noise M V P t2 position normal).vColor
      ∧ fragColor (postTransform Real.sqrt noise M V P t1 position normal).vColor
        = fragColor (postTransform Real.sqrt noise M V P t2 position normal).vColor
      ∧ (postTransform Real.sqrt wNoise M V P t1 position normal).vNoise = t1 / 100 :=
  ⟨rfl, rfl, rfl⟩

/-! ## Rendering -/

section Generic

variable {α : Type} [LinearOrderedField α]

theorem renderScene_viewport (cos sin : α → α) (s : State α) (c : CameraArg)
    (l b w h : Option α) (d : α) :
    (renderScene cos sin s c l b w h d).renderer.viewport
      = some ⟨l.map (· * s.innerWidth), b.map (· * s.innerHeight),
          w.map (· * s.innerWidth), h.map (· * s.innerHeight)⟩ := rfl

theorem renderScene_scissor (cos sin : α → α) (s : State α) (c : CameraArg)
    (l b w h : Option α) (d : α) :
    (renderScene cos sin s c l b w h d).renderer.scissor
      = some ⟨l.map (· * s.innerWidth), b.map (· * s.innerHeight),
          w.map (· * s.innerWidth), h.map (· * s.innerHeight)⟩ := rfl

theorem renderScene_renders (cos sin : α → α) (s : State α) (c : CameraArg)
    (l b w h : Option α) (d : α) :
    (renderScene cos sin s c l b w h d).renderer.renders = s.renderer.renders ++ [c] := rfl

theorem controlsUpdate_renders (cos sin : α → α) (s : State α) (changed : Bool) (d : α) :
    (controlsUpdate cos sin s changed d).renderer.renders
      = s.renderer.renders ++ (if changed then [CameraArg.event] else []) := by
  cases changed
  · simp [controlsUpdate]
  · rfl

theorem controlsUpdate_innerWidth (cos sin : α → α) (s : State α) (changed : Bool) (d : α) :
    (controlsUpdate cos sin s changed d).innerWidth = s.innerWidth := by
  cases changed <;> rfl

theorem controlsUpdate_innerHeight (cos sin : α → α) (s : State α) (changed : Bool) (d : α) :
    (controlsUpdate cos sin s changed d).innerHeight = s.innerHeight := by
  cases changed <;> rfl

theorem update_renders (cos sin : α → α) (s : State α) (dS : α) (changed : Bool)
    (dL dC : α) :
    (update cos sin s dS changed dL dC).renderer.renders
      = s.renderer.renders ++ (if changed then [CameraArg.event] else [])
          ++ [CameraArg.camera CameraName.main] := by
  unfold update
  rw [renderScene_renders, controlsUpdate_renders]
  cases s.customShader <;> rfl

theorem update_viewport (cos sin : α → α) (s : State α) (dS : α) (changed : Bool)
    (dL dC : α) :
    (update cos sin s dS changed dL dC).renderer.viewport
      = some ⟨some 0, some 0, some s.innerWidth, some s.innerHeight⟩ := by
  unfold update
  rw [renderScene_viewport, controlsUpdate_innerWidth, controlsUpdate_innerHeight]
  cases s.customShader <;> simp

theorem update_scissor (cos sin : α → α) (s : State α) (dS : α) (changed : Bool)
    (dL dC : α) :
    (update cos sin s dS changed dL dC).renderer.scissor
      = some ⟨some 0, some 0, some s.innerWidth, some s.innerHeight⟩ := by
  unfold update
  rw [renderScene_scissor, controlsUpdate_innerWidth, controlsUpdate_innerHeight]
  cases s.customShader <;> simp

end Generic

/-- C9. The code at the failing input: the second `update` tick of an
`800 × 600` window, in which the orbit controls dispatch `'change'`.  The tick
ends with viewport and scissor at `(0, 0, 800, 600)`, but it makes two
`renderer.render` calls, not one: before the call of line 161 the listener of
line 102 runs `renderScene(event)`, which sets viewport and scissor to
`(NaN, NaN, NaN, NaN)` and calls `renderer.render` with the event in the place
of the camera. -/
theorem update_renders_twice_on_change :
    (renderScene Real.cos Real.sin
        (mount Real.cos Real.sin Real.pi 800 600 ⟨0, false, 0, 0⟩)
        CameraArg.event none none none none 0).renderer.viewport
        = some ⟨none, none, none, none⟩
      ∧ (renderScene Real.cos Real.sin
        (mount Real.cos Real.sin Real.pi 800 600 ⟨0, false, 0, 0⟩)
        CameraArg.event none none none none 0).renderer.scissor
        = some ⟨none, none, none, none⟩
      ∧ (update Real.cos Real.sin (mount Real.cos Real.sin Real.pi 800 600 ⟨0, false, 0, 0⟩)
          (1 / 60) true 0 (1 / 60)).renderer.renders
        = (mount Real.cos Real.sin Real.pi 800 600 ⟨0, false, 0, 0⟩).renderer.renders
          ++ [CameraArg.event, CameraArg.camera CameraName.main]
      ∧ (update Real.cos Real.sin (mount Real.cos Real.sin Real.pi 800 600 ⟨0, false, 0, 0⟩)
          (1 / 60) true 0 (1 / 60)).renderer.viewport
        = some ⟨some 0, some 0, some 800, some 600⟩
      ∧ (update Real.cos Real.sin (mount Real.cos Real.sin Real.pi 800 600 ⟨0, false, 0, 0⟩)
          (1 / 60) true 0 (1 / 60)).renderer.scissor
        = some ⟨some 0, some 0, some 800, some 600⟩ := by
  refine ⟨rfl, rfl, ?_, ?_, ?_⟩
  · rw [update_renders]
    simp
  · rw [update_viewport]
    rfl
  · rw [update_scissor]
    rfl

/-! ## Animation-frame callbacks -/

example : (frames (fun _ => (1 : ℚ)) (fun _ => 0)
      (mount (fun _ => 1) (fun _ => 0) 3 800 600 ⟨0, false, 0, 0⟩)
      [fun _ => ⟨0, true, 0, 0⟩, fun _ => ⟨0, true, 0, 0⟩]).rafQueue
    = [Callback.update, Callback.animateCamera, Callback.animateCamera,
        Callback.animateCamera, Callback.animateCamera, Callback.animateCamera] := by decide

section Generic

variable {α : Type} [LinearOrderedField α]

theorem animateCamera_rafQueue (cos sin : α → α) (s : State α) (d : α) :
    (animateCamera cos sin s d).rafQueue = s.rafQueue ++ [Callback.animateCamera] := rfl

theorem renderScene_rafQueue (cos sin : α → α) (s : State α) (c : CameraArg)
    (l b w h : Option α) (d : α) :
    (renderScene cos sin s c l b w h d).rafQueue = s.rafQueue ++ [Callback.animateCamera] := rfl

theorem controlsUpdate_rafQueue (cos sin : α → α) (s : State α) (changed : Bool) (d : α) :
    (controlsUpdate cos sin s changed d).rafQueue
      = s.rafQueue ++ (if changed then [Callback.animateCamera] else []) := by
  cases changed
  · simp [controlsUpdate]
  · rfl

theorem update_rafQueue (cos sin : α → α) (s : State α) (dS : α) (changed : Bool)
    (dL dC : α) :
    (update cos sin s dS changed dL dC).rafQueue
      = s.rafQueue ++ Callback.registers Callback.update changed := by
  unfold update
  rw [renderScene_rafQueue, controlsUpdate_rafQueue]
  cases s.customShader <;> cases changed <;> simp [Callback.registers]

theorem runCallback_rafQueue (cos sin : α → α) (s : State α) (cb : Callback) (i : Inputs α) :
    (runCallback cos sin s cb i).rafQueue = s.rafQueue ++ cb.registers i.changed := by
  cases cb with
  | update => exact update_rafQueue _ _ _ _ _ _ _
  | animateCamera => rfl

theorem runCallbacks_animateCamera (cos sin : α → α) (clock : Nat → Inputs α) (k i : Nat)
    (s : State α) :
    (runCallbacks cos sin clock i (List.replicate k Callback.animateCamera) s).rafQueue
        = s.rafQueue ++ List.replicate k Callback.animateCamera
      ∧ (runCallbacks cos sin clock i (List.replicate k Callback.animateCamera) s).renderer.renders
        = s.renderer.renders := by
  induction k generalizing i s with
  | zero => simp [runCallbacks]
  | succ k ih =>
    rw [List.replicate_succ, runCallbacks]
    obtain ⟨h1, h2⟩ := ih (i + 1) (runCallback cos sin s Callback.animateCamera (clock i))
    refine ⟨?_, ?_⟩
    · rw [h1, runCallback_rafQueue]
      simp [Callback.registers]
    · rw [h2]
      rfl

theorem registers_update_append (changed : Bool) (k : Nat) :
    Callback.registers Callback.update changed ++ List.replicate k Callback.animateCamera
      = Callback.update
          :: List.replicate (k + 1 + (if changed then 1 else 0)) Callback.animateCamera := by
  cases changed <;> simp [Callback.registers, List.replicate_succ]

theorem frame_shape (cos sin : α → α) (s : State α) (clock : Nat → Inputs α) (k : Nat)
    (hq : s.rafQueue = Callback.update :: List.replicate k Callback.animateCamera) :
    (frame cos sin s clock).rafQueue
        = Callback.update
          :: List.replicate (k + 1 + (if (clock 0).changed then 1 else 0)) Callback.animateCamera
      ∧ (frame cos sin s clock).renderer.renders.length
        = s.renderer.renders.length + 1 + (if (clock 0).changed then 1 else 0) := by
  rw [frame, hq, runCallbacks]
  obtain ⟨h1, h2⟩ := runCallbacks_animateCamera cos sin clock k (0 + 1)
    (runCallback cos sin { s with rafQueue := [] } Callback.update (clock 0))
  refine ⟨?_, ?_⟩
  · rw [h1, runCallback_rafQueue, List.nil_append, registers_update_append]
  · rw [h2]
    show (update cos sin { s with rafQueue := [] } (clock 0).shaderDelta (clock 0).changed
      (clock 0).listenerDelta (clock 0).cameraDelta).renderer.renders.length = _
    rw [update_renders]
    cases (clock 0).changed <;> simp

theorem frames_shape (cos sin : α → α) (clocks : List (Nat → Inputs α)) (s : State α) (k : Nat)
    (hq : s.rafQueue = Callback.update :: List.replicate k Callback.animateCamera) :
    (frames cos sin s clocks).rafQueue
        = Callback.update
          :: List.replicate (k + clocks.length + clocks.countP (fun clock => (clock 0).changed))
              Callback.animateCamera
      ∧ (frames cos sin s clocks).renderer.renders.length
        = s.renderer.renders.length + clocks.length
          + clocks.countP (fun clock => (clock 0).changed) := by
  induction clocks generalizing s k with
  | nil => exact ⟨by simpa using hq, by simp [frames]⟩
  | cons clock clocks ih =>
    obtain ⟨hf1, hf2⟩ := frame_shape cos sin s clock k hq
    obtain ⟨h1, h2⟩ := ih (frame cos sin s clock) _ hf1
    have e : frames cos sin s (clock :: clocks) = frames cos sin (frame cos sin s clock) clocks :=
      rfl
    rw [e, h1, h2, hf2, List.length_cons, List.countP_cons]
    generalize List.countP (fun clock => (clock 0).changed) clocks = c
    generalize (clock 0).changed = ch
    clear ih h1 h2 hf1 hf2 e hq
    refine ⟨?_, ?_⟩
    · congr 2
      cases ch <;> simp <;> omega
    · cases ch <;> simp <;> omega

theorem mount_shape (cos sin : α → α) (PI W H : α) (first : Inputs α) :
    (mount cos sin PI W H first).rafQueue
        = Callback.update
          :: List.replicate (0 + 1 + (if first.changed then 1 else 0)) Callback.animateCamera
      ∧ (mount cos sin PI W H first).renderer.renders.length
        = 1 + (if first.changed then 1 else 0) := by
  refine ⟨?_, ?_⟩
  · rw [mount, update_rafQueue, ← registers_update_append]
    simp [init]
  · rw [mount, update_renders]
    cases first.changed <;> rfl

theorem run_shape (cos sin : α → α) (PI W H : α) (first : Inputs α)
    (clocks : List (Nat → Inputs α)) :
    (frames cos sin (mount cos sin PI W H first) clocks).rafQueue
        = Callback.update
          :: List.replicate (clocks.length + 1 + changeCount first clocks) Callback.animateCamera
      ∧ (frames cos sin (mount cos sin PI W H first) clocks).renderer.renders.length
        = clocks.length + 1 + changeCount first clocks := by
  obtain ⟨hm1, hm2⟩ := mount_shape cos sin PI W H first
  obtain ⟨h1, h2⟩ := frames_shape cos sin clocks _ _ hm1
  rw [h1, h2, hm2]
  unfold changeCount
  generalize List.countP (fun clock => (clock 0).changed) clocks = c
  generalize first.changed = ch
  clear h1 h2 hm1 hm2
  refine ⟨?_, ?_⟩
  · congr 2
    omega
  · omega

theorem count_update_shape (m : Nat) :
    (Callback.update :: List.replicate m Callback.animateCamera).count Callback.update = 1 := by
  rw [List.count_cons_self, List.count_replicate]
  simp

theorem count_animateCamera_shape (m : Nat) :
    (Callback.update :: List.replicate m Callback.animateCamera).count Callback.animateCamera
      = m := by
  rw [List.count_cons_of_ne (by decide), List.count_replicate_self]

end Generic

/-- C10, as the specification states it, fails.  On the second `update` tick
the controls find the main camera moved and re-aimed by the first tick and
dispatch `'change'` with no pointer input; the listener's `renderScene` call
starts a camera loop besides the one started on line 161.  After two update
ticks three `animateCamera` callbacks are pending, not two. -/
theorem second_tick_leaves_three_camera_callbacks :
    ¬ (frames Real.cos Real.sin (mount Real.cos Real.sin Real.pi 800 600 ⟨0, false, 0, 0⟩)
        [fun _ => ⟨1 / 60, true, 0, 1 / 60⟩]).rafQueue.count Callback.animateCamera = 2 := by
  rw [(run_shape Real.cos Real.sin Real.pi 800 600 ⟨0, false, 0, 0⟩
    [fun _ => ⟨1 / 60, true, 0, 1 / 60⟩]).1, count_animateCamera_shape]
  simp [changeCount]

/-- C10, amended.  Every `renderScene` call and every `animateCamera` run
registers an `animateCamera` callback for the next frame, and nothing removes
one; an `update` tick registers `update` once and one `animateCamera` through
line 161, plus one more through the `'change'` listener when the controls
dispatch the event in that tick.  With the animation-frame queue run once per
frame, after `n ≥ 1` update ticks (the one at mount and one per frame), `c` of
which dispatched `'change'`, exactly one `update` and exactly `n + c`
`animateCamera` callbacks are pending and `n + c` render calls have been made:
`2 * n - 1` camera callbacks when every tick but the first dispatches the event,
`n` when none does.  The number of pending camera callbacks exceeds every
bound. -/
theorem camera_callbacks_accumulate (W H : ℝ) (first : Inputs ℝ) (n : ℕ)
    (clocks : List (Nat → Inputs ℝ)) (hn : 1 ≤ n) (hlen : clocks.length + 1 = n) :
    (∀ (s : State ℝ) (c : CameraArg) (l b w h : Option ℝ) (d : ℝ),
        (renderScene Real.cos Real.sin s c l b w h d).rafQueue
          = s.rafQueue ++ [Callback.animateCamera])
      ∧ (∀ (s : State ℝ) (d : ℝ),
        (animateCamera Real.cos Real.sin s d).rafQueue = s.rafQueue ++ [Callback.animateCamera])
      ∧ (∀ (s : State ℝ) (dS dL dC : ℝ),
        (update Real.cos Real.sin s dS false dL dC).rafQueue
            = s.rafQueue ++ [Callback.update, Callback.animateCamera]
          ∧ (update Real.cos Real.sin s dS true dL dC).rafQueue
            = s.rafQueue ++ [Callback.update, Callback.animateCamera, Callback.animateCamera])
      ∧ (frames Real.cos Real.sin (mount Real.cos Real.sin Real.pi W H first)
            clocks).renderer.renders.length = n + changeCount first clocks
      ∧ (frames Real.cos Real.sin (mount Real.cos Real.sin Real.pi W H first)
            clocks).rafQueue.count Callback.update = 1
      ∧ (frames Real.cos Real.sin (mount Real.cos Real.sin Real.pi W H first)
            clocks).rafQueue.count Callback.animateCamera = n + changeCount first clocks
      ∧ (first.changed = false → (∀ clock ∈ clocks, (clock 0).changed = true) →
          (frames Real.cos Real.sin (mount Real.cos Real.sin Real.pi W H first)
            clocks).rafQueue.count Callback.animateCamera + 1 = 2 * n)
      ∧ (first.changed = false → (∀ clock ∈ clocks, (clock 0).changed = false) →
          (frames Real.cos Real.sin (mount Real.cos Real.sin Real.pi W H first)
            clocks).rafQueue.count Callback.animateCamera = n)
      ∧ (∀ N : ℕ, ∃ more : List (Nat → Inputs ℝ),
          N < (frames Real.cos Real.sin (mount Real.cos Real.sin Real.pi W H first)
            (clocks ++ more)).rafQueue.count Callback.animateCamera) := by
  have _ := hn
  obtain ⟨hq, hr⟩ := run_shape Real.cos Real.sin Real.pi W H first clocks
  have hcount : (frames Real.cos Real.sin (mount Real.cos Real.sin Real.pi W H first)
      clocks).rafQueue.count Callback.animateCamera = n + changeCount first clocks := by
    rw [hq, count_animateCamera_shape, hlen]
  refine ⟨fun _ _ _ _ _ _ _ => rfl, fun _ _ => rfl, fun s dS dL dC => ⟨?_, ?_⟩, ?_, ?_, hcount,
    ?_, ?_, ?_⟩
  · rw [update_rafQueue]
    rfl
  · rw [update_rafQueue]
    rfl
  · rw [hr, hlen]
  · rw [hq, count_update_shape]
  · intro hf hall
    have hc : changeCount first clocks = clocks.length := by
      unfold changeCount
      rw [hf, List.countP_eq_length.mpr (fun clock hm => hall clock hm)]
      simp
    rw [hcount, hc]
    omega
  · intro hf hall
    have hc : changeCount first clocks = 0 := by
      unfold changeCount
      rw [hf, List.countP_eq_zero.mpr (fun clock hm => by simp [hall clock hm])]
      simp
    rw [hcount, hc]
    rfl
  · intro N
    refine ⟨List.replicate N (fun _ => ⟨0, false, 0, 0⟩), ?_⟩
    rw [(run_shape Real.cos Real.sin Real.pi W H first _).1, count_animateCamera_shape]
    simp only [List.length_append, List.length_replicate]
    omega

theorem camera_callbacks_accumulate_witness :
    (frames Real.cos Real.sin (mount Real.cos Real.sin Real.pi 800 600 ⟨0, false, 0, 0⟩)
        [fun _ => ⟨1 / 60, true, 0, 1 / 60⟩, fun _ => ⟨1 / 60, true, 0, 1 / 60⟩]).rafQueue.count
      Callback.animateCamera + 1 = 2 * 3 :=
  (camera_callbacks_accumulate 800 600 ⟨0, false, 0, 0⟩ 3
    [fun _ => ⟨1 / 60, true, 0, 1 / 60⟩, fun _ => ⟨1 / 60, true, 0, 1 / 60⟩]
    (by decide) rfl).2.2.2.2.2.2.1 rfl (by
      intro clock hm
      simp at hm
      rw [hm])

/-! ## Closed form of the lighting blend -/

example : (postTransform (fun x => x) (fun _ => (0 : ℚ)) 1 1 1 7 ⟨1, 2, 3⟩ ⟨1, 0, 0⟩).vColor.x
    = 28 / 100 := by
  have h : max (-(3 / 10) : ℚ) 0 = 0 := max_eq_right (by norm_num)
  simp [postTransform, mix, Vector3.dot, Vector3.neg, Vector3.normalize, Vector3.length, h]
  norm_num

theorem normalize_neg_lightPositionA :
    (Vector3.neg (⟨0, 0, -1⟩ : Vector3 ℝ)).normalize Real.sqrt = ⟨0, 0, 1⟩ := by
  simp [Vector3.normalize, Vector3.length, Vector3.dot, Vector3.neg]

theorem normalize_neg_lightPositionB :
    (Vector3.neg (⟨0, -1, 0⟩ : Vector3 ℝ)).normalize Real.sqrt = ⟨0, 1, 0⟩ := by
  simp [Vector3.normalize, Vector3.length, Vector3.dot, Vector3.neg]

theorem normalize_neg_lightPositionC :
    (Vector3.neg (⟨0, 1, 0⟩ : Vector3 ℝ)).normalize Real.sqrt = ⟨0, -1, 0⟩ := by
  simp [Vector3.normalize, Vector3.length, Vector3.dot, Vector3.neg]

theorem normalize_neg_lightPositionD :
    (Vector3.neg (⟨-1, 0, 0⟩ : Vector3 ℝ)).normalize Real.sqrt = ⟨1, 0, 0⟩ := by
  simp [Vector3.normalize, Vector3.length, Vector3.dot, Vector3.neg]

theorem normalize_neg_lightPositionE :
    (Vector3.neg (⟨1, 0, 0⟩ : Vector3 ℝ)).normalize Real.sqrt = ⟨-1, 0, 0⟩ := by
  simp [Vector3.normalize, Vector3.length, Vector3.dot, Vector3.neg]

theorem postTransform_vColor_mix (noise : Vector4 ℝ → ℝ) (M V P : Matrix (Fin 4) (Fin 4) ℝ)
    (time : ℝ) (position normal : Vector3 ℝ) :
    (postTransform Real.sqrt noise M V P time position normal).vColor
      = mix (mix (mix (mix (mix ⟨28 / 100, 2 / 10, 15 / 100⟩ ⟨8 / 10, 6 / 10, 5 / 10⟩
            (max (-(3 / 10)) (-normal.z)))
          ⟨28 / 100, 2 / 10, 15 / 100⟩ (-normal.y - 1 / 10))
          ⟨28 / 100, 2 / 10, 15 / 100⟩ (normal.y - 1 / 10))
          ⟨28 / 100, 2 / 10, 15 / 100⟩ (-normal.x - 1 / 10))
          ⟨28 / 100, 2 / 10, 15 / 100⟩ (normal.x - 1 / 10) := by
  simp only [postTransform, normalize_neg_lightPositionA, normalize_neg_lightPositionB,
    normalize_neg_lightPositionC, normalize_neg_lightPositionD, normalize_neg_lightPositionE,
    Vector3.dot]
  simp

/-- C11. For every normal `n = (nx, ny, nz)` the vertex colour satisfies
`color - base = tA * (1 - tB) * (1 - tC) * (1 - tD) * (1 - tE) * (lightColorA - base)`
in each component, with `base = (0.28, 0.2, 0.15)`, `lightColorA = (0.8, 0.6, 0.5)`,
`tA = max(-0.3, -nz)`, `tB = -ny - 0.1`, `tC = ny - 0.1`, `tD = -nx - 0.1` and
`tE = nx - 0.1`; the colour is `base` for every normal with `nz = 0`; and the
colour is the same for any two positions, noise functions, matrices and times. -/
theorem vColor_closed_form (noise noise2 : Vector4 ℝ → ℝ)
    (M V P M2 V2 P2 : Matrix (Fin 4) (Fin 4) ℝ) (time time2 : ℝ)
    (position position2 normal : Vector3 ℝ) :
    (postTransform Real.sqrt noise M V P time position normal).vColor.x - 28 / 100
        = max (-(3 / 10)) (-normal.z) * (1 - (-normal.y - 1 / 10)) * (1 - (normal.y - 1 / 10))
          * (1 - (-normal.x - 1 / 10)) * (1 - (normal.x - 1 / 10)) * (8 / 10 - 28 / 100)
      ∧ (postTransform Real.sqrt noise M V P time position normal).vColor.y - 2 / 10
        = max (-(3 / 10)) (-normal.z) * (1 - (-normal.y - 1 / 10)) * (1 - (normal.y - 1 / 10))
          * (1 - (-normal.x - 1 / 10)) * (1 - (normal.x - 1 / 10)) * (6 / 10 - 2 / 10)
      ∧ (postTransform Real.sqrt noise M V P time position normal).vColor.z - 15 / 100
        = max (-(3 / 10)) (-normal.z) * (1 - (-normal.y - 1 / 10)) * (1 - (normal.y - 1 / 10))
          * (1 - (-normal.x - 1 / 10)) * (1 - (normal.x - 1 / 10)) * (5 / 10 - 15 / 100)
      ∧ max (-(3 / 10)) (-normal.z) * (1 - (-normal.y - 1 / 10)) * (1 - (normal.y - 1 / 10))
          * (1 - (-normal.x - 1 / 10)) * (1 - (normal.x - 1 / 10)) = lightBlendFactor normal
      ∧ (postTransform Real.sqrt noise M V P time position ⟨normal.x, normal.y, 0⟩).vColor
        = ⟨28 / 100, 2 / 10, 15 / 100⟩
      ∧ (postTransform Real.sqrt noise M V P time position normal).vColor
        = (postTransform Real.sqrt noise2 M2 V2 P2 time2 position2 normal).vColor := by
  refine ⟨?_, ?_, ?_, rfl, ?_, ?_⟩
  · rw [postTransform_vColor_mix]
    simp only [mix]
    ring
  · rw [postTransform_vColor_mix]
    simp only [mix]
    ring
  · rw [postTransform_vColor_mix]
    simp only [mix]
    ring
  · rw [postTransform_vColor_mix]
    have h0 : max (-(3 / 10) : ℝ) (-0) = 0 := by
      rw [neg_zero]
      exact max_eq_right (by norm_num)
    simp only [h0, mix, Vector3.mk.injEq]
    refine ⟨?_, ?_, ?_⟩ <;> ring
  · rw [postTransform_vColor_mix, postTransform_vColor_mix]

end Artwork
